import Mathlib

/-!
A shallow embedding of the language-learning lesson player
(`langAppST`: `lesson_presenter.py`, `pages.py`, `progress_handler.py`),
with theorems settling the frozen claims about its specification.

Conventions of the embedding:
* Python dicts with fixed shapes become structures; `st.session_state` is one
  `SessionState` record.
* The Supabase backend is modelled as an explicit `DB` value threaded through
  the `ProgressStore` operations; `upsert ... on_conflict` replaces the row
  matching the conflict key or appends a new one.
* `random.shuffle` is modelled by passing the shuffled list as an explicit
  parameter; theorems assume it is a permutation of the list being shuffled.
* Python floats in the recommendation score are modelled as exact rationals.
* Timestamps are abstract: a record carries `days`, the whole days elapsed
  since its `updated_at` (`(now - updated_at).days`), computed by an abstract
  `daysSince` parameter at the store level.
-/

namespace LangApp

/-- `string.ascii_letters`: the 52 ASCII letters. -/
def asciiLetters : List Char :=
  "abcdefghijklmnopqrstuvwxyzABCDEFGHIJKLMNOPQRSTUVWXYZ".data

/-- `lesson_presenter.comparison_string`: keep only the characters contained in
`ascii_letters`, then casefold.  On a string of ASCII letters, Python's
`str.casefold` is plain lowercasing, so it is modelled by `Char.toLower`. -/
def comparison_string (input_string : String) : String :=
  String.mk (((input_string.data.filter
    (fun letter => decide (letter ∈ asciiLetters))).map Char.toLower))

/-- The shared free-text acceptance test of `render_cloze` (line 204),
`render_translate_type` (line 342) and `render_listen_type` (line 387):
`comparison_string(answer) in [comparison_string(sol) for sol in solutions]`. -/
def textAnswerAccepted (answer : String) (solutions : List String) : Bool :=
  decide (comparison_string answer ∈ solutions.map comparison_string)

/-- A word/exercise record (a step dict identified by its `"id"` field). -/
structure Word where
  id : String
  payload : String
deriving DecidableEq

/-- A synthetic or loaded lesson (`lesson_dict`). -/
structure Lesson where
  id : String
  title : String
  description : String
  steps : List Word
deriving DecidableEq

/-- One pair of the `match` exercise (`step["pairs"]` entry). -/
structure Pair where
  left : String
  right : String
deriving DecidableEq

/-- `lesson_presenter.StepOutcome`. -/
structure StepOutcome where
  can_go_next : Bool
deriving DecidableEq

/-- The `st.session_state` fields the lesson player uses
(cf. `pages.clear_lesson_sessionstate`, which assigns every one of them). -/
structure SessionState where
  step_idx : Nat
  mistakes : Nat
  new_words : List Word
  order_tokens : List String
  used_tokens : List String
  order_answer : List String
  correct_order : List String
  take_over_answer : String
  pressed_match_buttons : List String
  match_sel_btn : Option String
  left : List String
  right : List String
  last_pair : List String
  match_sound : String
  exercise_done : Bool
  lesson_dict : Option Lesson
deriving DecidableEq

/-- The freshly initialised session state (every field at its empty value). -/
def initState : SessionState :=
  ⟨0, 0, [], [], [], [], [], "", [], none, [], [], [], "", false, none⟩

/-- `pages.clear_lesson_sessionstate`. -/
def clear_lesson_sessionstate (s : SessionState) : SessionState :=
  { s with
    pressed_match_buttons := []
    match_sel_btn := none
    left := []
    right := []
    order_tokens := []
    used_tokens := []
    order_answer := []
    mistakes := 0
    new_words := []
    take_over_answer := ""
    lesson_dict := none
    correct_order := []
    last_pair := []
    match_sound := ""
    exercise_done := false }

/-- `pages.reset_select_sessionstate`: the per-step reset run on every
back/skip/next navigation. -/
def reset_select_sessionstate (s : SessionState) : SessionState :=
  { s with
    order_tokens := []
    used_tokens := []
    order_answer := []
    correct_order := []
    exercise_done := false }

/-- The `Back` button of `pages.player` (lines 187-190):
`step_idx -= 1` then `reset_select_sessionstate()`. -/
def player_back (s : SessionState) : SessionState :=
  reset_select_sessionstate { s with step_idx := s.step_idx - 1 }

/-- The `Skip` button of `pages.player` (lines 193-196). -/
def player_skip (s : SessionState) : SessionState :=
  reset_select_sessionstate { s with step_idx := s.step_idx + 1 }

/-- The `Next` button of `pages.player` (lines 198-201). -/
def player_next (s : SessionState) : SessionState :=
  reset_select_sessionstate { s with step_idx := s.step_idx + 1 }

/-- The initialisation branch of `render_order` (lines 231-236): when the
session shuffle pool is empty, store the step's tokens as `correct_order`
(before any shuffling) and the shuffled copy as the presented pool. -/
def render_order_init (step_tokens : List String) (shuffled : List String)
    (s : SessionState) : SessionState :=
  if s.order_tokens = [] then
    { s with correct_order := step_tokens, order_tokens := shuffled }
  else s

/-- The submit check of `render_order` (lines 291-292): the accumulated
answer must equal `correct_order`, element by element, no normalization. -/
def order_submit_check (s : SessionState) : Bool :=
  decide (s.order_answer = s.correct_order)

/-- The `corresponding_btn` scan of `render_match` (lines 427-433): the first
pair whose left (checked first) or right side equals the selected button gives
the counterpart; `""` when no pair matches. -/
def corresponding_button : List Pair → String → String
  | [], _ => ""
  | p :: rest, sel =>
    if p.left = sel then p.right
    else if p.right = sel then p.left
    else corresponding_button rest sel

/-- Python truthiness of `st.session_state["match_sel_btn"]`
(`None` and `""` are falsy). -/
def optTruthy : Option String → Bool
  | none => false
  | some s => decide (¬ s = "")

/-- `check_buttons` of `render_match` (lines 443-458), the per-click state
transition (the `st.rerun()` calls aside).  Note the non-matching branch sets
only `match_sel_btn` and `match_sound`. -/
def check_buttons (pairs : List Pair) (s : SessionState) (elm : String) :
    SessionState :=
  if optTruthy s.match_sel_btn then
    let sel := s.match_sel_btn.getD ""
    let corr := corresponding_button pairs sel
    if elm = corr then
      { s with
        pressed_match_buttons := s.pressed_match_buttons ++ [elm, sel]
        match_sel_btn := none
        match_sound := "correct"
        last_pair := [corr, sel] }
    else
      { s with match_sel_btn := none, match_sound := "wrong" }
  else
    { s with last_pair := [], match_sel_btn := some elm }

/-- `lesson_presenter.mistake_made`: increment the session mistake counter
(and play the wrong-answer sound, a pure UI effect). -/
def mistake_made (s : SessionState) : SessionState :=
  { s with mistakes := s.mistakes + 1 }

/-- A step as far as `render_step` dispatch is concerned:
`str(step.get("type", "markdown"))`. -/
structure Step where
  type : Option String
deriving DecidableEq

/-- The eight step types `render_step` recognises (lines 83-98). -/
def knownStepTypes : List String :=
  ["markdown", "introduce_word", "cloze", "order", "translate_type",
   "listen_type", "true_false", "match"]

/-- `lesson_presenter.render_step` dispatch, returning each renderer's
`StepOutcome` as a function of the current session state (no submission in
flight): `render_markdown` and `render_introduce_word` always allow advancing;
`render_cloze` allows it exactly when the accepted-answer echo is non-empty
(lines 215-224); the remaining exercise renderers allow it exactly when
`exercise_done` is set; an unrecognised type falls through to a warning plus
`StepOutcome(can_go_next=True)` (lines 99-100). -/
def render_step (step : Step) (s : SessionState) : StepOutcome :=
  let stype := step.type.getD "markdown"
  if stype = "markdown" then ⟨true⟩
  else if stype = "introduce_word" then ⟨true⟩
  else if stype = "cloze" then ⟨decide (¬ s.take_over_answer = "")⟩
  else if stype = "order" then ⟨s.exercise_done⟩
  else if stype = "translate_type" then ⟨s.exercise_done⟩
  else if stype = "listen_type" then ⟨s.exercise_done⟩
  else if stype = "match" then ⟨s.exercise_done⟩
  else if stype = "true_false" then ⟨s.exercise_done⟩
  else ⟨true⟩

/-- A row of the `lesson_progress` table (`completed` is the stored integer
flag, `updated_at` an abstract timestamp). -/
structure ProgressRow where
  user_id : String
  course_id : String
  lesson_id : String
  completed : Nat
  mistakes : Nat
  updated_at : Nat
deriving DecidableEq

/-- A row of the `user_stats` table: the known-words JSONB blob per
(user, course). -/
structure StatsRow where
  user_id : String
  course_id : String
  known_words : List Word
deriving DecidableEq

/-- The backing store (the two Supabase tables the progress handler uses). -/
structure DB where
  lesson_progress : List ProgressRow
  user_stats : List StatsRow
deriving DecidableEq

/-- `upsert ... on_conflict="user_id,course_id,lesson_id"` on
`lesson_progress`: replace the row matching the conflict key, else append. -/
def upsertProgress (db : DB) (row : ProgressRow) : DB :=
  if db.lesson_progress.any (fun r =>
      decide (r.user_id = row.user_id ∧ r.course_id = row.course_id ∧
        r.lesson_id = row.lesson_id)) then
    { db with lesson_progress := db.lesson_progress.map (fun r =>
        if r.user_id = row.user_id ∧ r.course_id = row.course_id ∧
            r.lesson_id = row.lesson_id then row else r) }
  else
    { db with lesson_progress := db.lesson_progress ++ [row] }

/-- `upsert ... on_conflict="user_id,course_id"` on `user_stats`. -/
def upsertStats (db : DB) (row : StatsRow) : DB :=
  if db.user_stats.any (fun r =>
      decide (r.user_id = row.user_id ∧ r.course_id = row.course_id)) then
    { db with user_stats := db.user_stats.map (fun r =>
        if r.user_id = row.user_id ∧ r.course_id = row.course_id then row
        else r) }
  else
    { db with user_stats := db.user_stats ++ [row] }

/-- `ProgressStore.get_known_words`: `[]` for guests; else the `known_words`
blob of the (user, course) stats row, `[]` when there is none. -/
def get_known_words (guest : Bool) (db : DB) (user_id course_id : String) :
    List Word :=
  if guest then []
  else
    match db.user_stats.find? (fun r =>
        decide (r.user_id = user_id ∧ r.course_id = course_id)) with
    | some r => r.known_words
    | none => []

/-- Python equality between a word id (a `str`) and an element of the stored
known-words list (a word `dict`) — `word["id"] not in completed_list` at
`progress_handler.py` line 34 tests the id against a list of dicts, and in
Python `str == dict` is always `False`. -/
def pyIdEqWordDict (_id : String) (_w : Word) : Bool := false

/-- The merge loop of `ProgressStore.lesson_completed` (lines 33-35):
append each new word whose id is not `in` the fetched list. -/
def merge_known_words (completed new_words : List Word) : List Word :=
  new_words.foldl
    (fun completed_list word =>
      if completed_list.any (fun w => pyIdEqWordDict word.id w) then
        completed_list
      else completed_list ++ [word])
    completed

/-- `ProgressStore.lesson_completed`: guests get `0` back and nothing is
written; otherwise merge the new words into the fetched known-words list and
upsert both the progress row (`completed=1`, the mistake count, `now`) and the
stats row.  The Python function returns `None` on the non-guest path. -/
def lesson_completed (guest : Bool) (db : DB)
    (user_id course_id lesson_id : String) (mistakes_made : Nat) (now : Nat)
    (new_words : List Word) : Option Nat × DB :=
  if guest then (some 0, db)
  else
    let completed_list :=
      merge_known_words (get_known_words false db user_id course_id) new_words
    let db1 := upsertProgress db
      ⟨user_id, course_id, lesson_id, 1, mistakes_made, now⟩
    let db2 := upsertStats db1 ⟨user_id, course_id, completed_list⟩
    (none, db2)

/-- `ProgressStore.check_lesson_completed`: `0` for guests and for missing
rows, else the stored `completed` value. -/
def check_lesson_completed (guest : Bool) (db : DB)
    (user_id course_id lesson_id : String) : Nat :=
  if guest then 0
  else
    match db.lesson_progress.find? (fun r =>
        decide (r.user_id = user_id ∧ r.course_id = course_id ∧
          r.lesson_id = lesson_id)) with
    | some r => r.completed
    | none => 0

/-- `ProgressStore.reset_lesson`: no-op for guests, else delete the
(user, course, lesson) progress row. -/
def reset_lesson (guest : Bool) (db : DB)
    (user_id course_id lesson_id : String) : DB :=
  if guest then db
  else
    { db with lesson_progress := db.lesson_progress.filter (fun r =>
        decide (¬ (r.user_id = user_id ∧ r.course_id = course_id ∧
          r.lesson_id = lesson_id))) }

/-- One row of the recommendation query (`lesson_id, mistakes, updated_at`),
with `days` the whole days elapsed since `updated_at`
(`(now - last_done).days`). -/
structure LessonRecord where
  lesson_id : String
  mistakes : Nat
  days : Nat
deriving DecidableEq

/-- The per-record score of `ProgressStore.get_recommended_lesson`
(lines 137-140): `0.8 * min(mistakes, 12)/12 + 0.2 * days/30`, the day term
unclamped.  Python float arithmetic is modelled exactly over `ℚ`. -/
def recordScore (lesson : LessonRecord) : ℚ :=
  0.8 * ((min lesson.mistakes 12 : ℕ) : ℚ) / 12 + 0.2 * (lesson.days : ℚ) / 30

/-- One iteration of the scan (lines 142-144): the record replaces the
current best exactly when its score is `>=` the best so far. -/
def recommendStep (best : String × ℚ) (lesson : LessonRecord) : String × ℚ :=
  if best.2 ≤ recordScore lesson then (lesson.lesson_id, recordScore lesson)
  else best

/-- The scan of `get_recommended_lesson` (lines 129-146), starting from
`recommended_lesson_id = ""`, `prev_top_value = 0`. -/
def recommendLoop (records : List LessonRecord) : String :=
  (records.foldl recommendStep ("", 0)).1

/-- The completed rows the recommendation query selects for (user, course). -/
def completedRows (db : DB) (user_id course_id : String) : List ProgressRow :=
  db.lesson_progress.filter (fun r =>
    decide (r.user_id = user_id ∧ r.course_id = course_id ∧ r.completed = 1))

/-- A queried row as the loop sees it, `daysSince` mapping its `updated_at`
to the elapsed whole days. -/
def toRecord (daysSince : Nat → Nat) (r : ProgressRow) : LessonRecord :=
  ⟨r.lesson_id, r.mistakes, daysSince r.updated_at⟩

/-- `ProgressStore.get_recommended_lesson`: `None` for guests, else the
result of the scoring scan over the completed rows (`""` when there are
none). -/
def get_recommended_lesson (guest : Bool) (db : DB)
    (user_id course_id : String) (daysSince : Nat → Nat) : Option String :=
  if guest then none
  else some (recommendLoop
    ((completedRows db user_id course_id).map (toRecord daysSince)))

/-- The caller's test for "no recommendation" (`pages.course_page` line 126:
`if rec_lesson_id:`): Python `None` and `""` are both falsy. -/
def isNoRecommendation : Option String → Bool
  | none => true
  | some s => decide (s = "")

/-- `ProgressStore.generate_word_repetition`: `None` for guests; else fetch
the known words, shuffle them (`shuffled` models `random.shuffle`'s output)
and take the first `min(len(known_words), 10)` as the steps of a synthetic
`"REPETITION"` lesson. -/
def generate_word_repetition (guest : Bool) (db : DB)
    (user_id course_id : String) (shuffled : List Word) : Option Lesson :=
  if guest then none
  else
    let known_words_temp := get_known_words false db user_id course_id
    let number := min known_words_temp.length 10
    let chosen_words := shuffled.take number
    some ⟨"REPETITION", "Repeat some Words!",
      "Repeat a random selection of words", chosen_words⟩

/-! ## Helper lemmas -/

/-- A character is in `ascii_letters` exactly when it is an ASCII letter
(`Char.isAlpha` tests the ASCII ranges `A`-`Z` and `a`-`z`). -/
lemma mem_asciiLetters_iff (c : Char) : c ∈ asciiLetters ↔ c.isAlpha := by
  constructor
  · intro h
    fin_cases h <;> decide
  · intro h
    simp only [Char.isAlpha, Char.isUpper, Char.isLower, Bool.or_eq_true,
      Bool.and_eq_true, decide_eq_true_eq] at h
    rcases h with ⟨h1, h2⟩ | ⟨h1, h2⟩
    · have hn1 : 65 ≤ c.toNat := h1
      have hn2 : c.toNat ≤ 90 := h2
      have hval : c = Char.ofNat c.toNat := by rw [Char.ofNat_toNat]
      rw [hval]
      interval_cases h : c.toNat <;> decide
    · have hn1 : 97 ≤ c.toNat := h1
      have hn2 : c.toNat ≤ 122 := h2
      have hval : c = Char.ofNat c.toNat := by rw [Char.ofNat_toNat]
      rw [hval]
      interval_cases h : c.toNat <;> decide

/-- Boolean form of `mem_asciiLetters_iff`. -/
lemma decide_mem_asciiLetters (c : Char) :
    decide (c ∈ asciiLetters) = c.isAlpha := by
  by_cases h : c ∈ asciiLetters
  · have h2 := (mem_asciiLetters_iff c).mp h
    simp [h, h2]
  · have h2 : ¬ (c.isAlpha = true) := fun ha => h ((mem_asciiLetters_iff c).mpr ha)
    simp [h, Bool.not_eq_true _ |>.mp h2]

/-- Every score is nonnegative (mistakes and elapsed days are naturals). -/
lemma recordScore_nonneg (r : LessonRecord) : (0 : ℚ) ≤ recordScore r := by
  unfold recordScore
  positivity

/-- What the recommendation scan computes from an arbitrary starting
accumulator `(b, t)`: either no record's score reaches `t` and the
accumulator survives, or the scan ends at the last record whose score is
maximal — every record scores no more than it, and every *later* record
scores strictly less (a later record with an equal score would have replaced
it, since replacement happens on `score >= best`). -/
lemma recommendFold_spec (records : List LessonRecord) :
    ∀ (b : String) (t : ℚ),
      (records.foldl recommendStep (b, t) = (b, t)
        ∧ ∀ r ∈ records, recordScore r < t)
      ∨ ∃ i : Fin records.length,
          records.foldl recommendStep (b, t) =
            ((records.get i).lesson_id, recordScore (records.get i))
          ∧ t ≤ recordScore (records.get i)
          ∧ (∀ j : Fin records.length,
              recordScore (records.get j) ≤ recordScore (records.get i))
          ∧ (∀ j : Fin records.length, i < j →
              recordScore (records.get j) < recordScore (records.get i)) := by
  induction records with
  | nil => intro b t; exact Or.inl ⟨rfl, by simp⟩
  | cons r rs ih =>
    intro b t
    by_cases h : t ≤ recordScore r
    · have hstep : recommendStep (b, t) r = (r.lesson_id, recordScore r) := by
        simp [recommendStep, h]
      rcases ih r.lesson_id (recordScore r) with ⟨heq, hall⟩ | ⟨i, heq, hge, hmax, hlast⟩
      · refine Or.inr ⟨⟨0, by simp⟩, ?_, ?_, ?_, ?_⟩
        · simpa [List.foldl_cons, hstep] using heq
        · simpa using h
        · intro j
          rcases j with ⟨jv, hj⟩
          cases jv with
          | zero => simp
          | succ j' =>
            have hj' : j' < rs.length := by simpa using hj
            have := hall (rs.get ⟨j', hj'⟩) (rs.get_mem _ _)
            simp only [List.get_cons_succ]
            exact le_of_lt this
        · intro j hj0
          rcases j with ⟨jv, hj⟩
          cases jv with
          | zero => simp at hj0
          | succ j' =>
            have hj' : j' < rs.length := by simpa using hj
            have := hall (rs.get ⟨j', hj'⟩) (rs.get_mem _ _)
            simpa using this
      · refine Or.inr ⟨i.succ, ?_, ?_, ?_, ?_⟩
        · simpa [List.foldl_cons, hstep] using heq
        · exact le_trans h hge
        · intro j
          rcases j with ⟨jv, hj⟩
          cases jv with
          | zero => simpa using hge
          | succ j' =>
            have hj' : j' < rs.length := by simpa using hj
            simpa using hmax ⟨j', hj'⟩
        · intro j hj0
          rcases j with ⟨jv, hj⟩
          cases jv with
          | zero => simp [Fin.lt_def] at hj0
          | succ j' =>
            have hj' : j' < rs.length := by simpa using hj
            have hij : i < ⟨j', hj'⟩ := by
              simp only [Fin.lt_def] at hj0 ⊢
              simpa using hj0
            simpa using hlast ⟨j', hj'⟩ hij
    · push_neg at h
      have hstep : recommendStep (b, t) r = (b, t) := by
        simp [recommendStep, not_le.mpr h]
      rcases ih b t with ⟨heq, hall⟩ | ⟨i, heq, hge, hmax, hlast⟩
      · refine Or.inl ⟨?_, ?_⟩
        · simpa [List.foldl_cons, hstep] using heq
        · intro x hx
          rcases List.mem_cons.mp hx with hx | hx
          · exact hx ▸ h
          · exact hall x hx
      · refine Or.inr ⟨i.succ, ?_, ?_, ?_, ?_⟩
        · simpa [List.foldl_cons, hstep] using heq
        · exact hge
        · intro j
          rcases j with ⟨jv, hj⟩
          cases jv with
          | zero => simpa using le_of_lt (lt_of_lt_of_le h hge)
          | succ j' =>
            have hj' : j' < rs.length := by simpa using hj
            simpa using hmax ⟨j', hj'⟩
        · intro j hj0
          rcases j with ⟨jv, hj⟩
          cases jv with
          | zero => simp [Fin.lt_def] at hj0
          | succ j' =>
            have hj' : j' < rs.length := by simpa using hj
            have hij : i < ⟨j', hj'⟩ := by
              simp only [Fin.lt_def] at hj0 ⊢
              simpa using hj0
            simpa using hlast ⟨j', hj'⟩ hij

/-! ## Concrete fixtures used by counterexamples and witnesses -/

/-- An empty backing store. -/
def emptyDB : DB := ⟨[], []⟩

/-- A sample word record. -/
def wordW1 : Word := ⟨"w1", "Bärn"⟩

/-- A session state mid-way through a lesson: a match exercise's pools,
pairs and the cloze echo populated, some mistakes made. -/
def stateC4 : SessionState :=
  { initState with
    left := ["x"]
    right := ["y"]
    take_over_answer := "echo"
    pressed_match_buttons := ["x", "y"]
    mistakes := 2
    new_words := [wordW1] }

/-- The match pairs a-1, b-2. -/
def pairsC9 : List Pair := [⟨"a", "1"⟩, ⟨"b", "2"⟩]

/-- A match state with "a" selected and no mistakes yet. -/
def stateC9 : SessionState := { initState with match_sel_btn := some "a" }

/-- A store whose (u, c) known words are w1, w2. -/
def dbC6 : DB := ⟨[], [⟨"u", "c", [⟨"w1", "a"⟩, ⟨"w2", "b"⟩]⟩]⟩

/-! ## Claim theorems -/

/-- Claim C1, counterexample.  The claim states that the free-text
normalization keeps every ASCII/Unicode letter and that validating the input
"Jä!" against the solutions ["ja"] succeeds.  On the code it fails:
`comparison_string` keeps only the characters of `string.ascii_letters`, so
the Unicode letter 'ä' is stripped, the input normalizes to "j", and "j" is
not among the normalized solutions ["ja"]. -/
theorem c1_counterexample :
    textAnswerAccepted "Jä!" ["ja"] = false
    ∧ comparison_string "Jä!" = "j" := by
  decide

/-- Claim C1, amended.  For every free-text validator (cloze, translate_type,
listen_type), both the learner's input and each accepted solution are
normalized by stripping every character that is not an ASCII letter (Unicode
letters outside ASCII are stripped too) and then case-folding, and the answer
is accepted iff the normalized input is a member of the normalized solutions
list; validating "Jä!" against ["ja"] therefore fails (the input normalizes
to "j"), while "Ja!" against ["ja"] succeeds. -/
theorem c1_free_text_normalized_membership :
    (∀ s : String, comparison_string s
      = String.mk ((s.data.filter Char.isAlpha).map Char.toLower))
    ∧ (∀ (answer : String) (solutions : List String),
        textAnswerAccepted answer solutions = true
        ↔ comparison_string answer ∈ solutions.map comparison_string)
    ∧ textAnswerAccepted "Ja!" ["ja"] = true
    ∧ textAnswerAccepted "Jä!" ["ja"] = false := by
  refine ⟨?_, ?_, by decide, by decide⟩
  · intro s
    unfold comparison_string
    congr 1
    congr 1
    exact List.filter_congr (fun a _ => decide_mem_asciiLetters a)
  · intro answer solutions
    simp [textAnswerAccepted]

/-- Claim C2 (a bug in the code).  `lesson_completed` is *not* idempotent on
the stored known-words list: recording the same lesson with the same single
new word twice grows the stored list from one entry to two, because the
dedup test `word["id"] not in completed_list` compares an id string against
a list of word dicts and never matches — contradicting the code's own
comment "to make sure we don't add the same stuff twice". -/
theorem c2_lesson_completed_duplicates_known_words :
    (get_known_words false
      (lesson_completed false emptyDB "u" "c" "l" 0 100 [wordW1]).2
      "u" "c").length = 1
    ∧ (get_known_words false
        (lesson_completed false
          (lesson_completed false emptyDB "u" "c" "l" 0 100 [wordW1]).2
          "u" "c" "l" 0 200 [wordW1]).2
        "u" "c").length = 2 := by
  decide

/-- Claim C3.  For every non-empty list of completed progress records, the
recommendation scan (per-record score `0.8 * min(mistakes,12)/12 +
0.2 * days/30`, unclamped day term, replacement on `score >= best`) returns
the lesson id of a record of maximal score, and that record is the last of
the maxima: every later record scores strictly less. -/
theorem c3_recommendation_last_argmax (r : LessonRecord)
    (rs : List LessonRecord) :
    ∃ i : Fin (r :: rs).length,
      recommendLoop (r :: rs) = ((r :: rs).get i).lesson_id
      ∧ (∀ j : Fin (r :: rs).length,
          recordScore ((r :: rs).get j) ≤ recordScore ((r :: rs).get i))
      ∧ (∀ j : Fin (r :: rs).length, i < j →
          recordScore ((r :: rs).get j) < recordScore ((r :: rs).get i)) := by
  rcases recommendFold_spec (r :: rs) "" 0 with ⟨heq, hall⟩ | ⟨i, heq, hge, hmax, hlast⟩
  · exact absurd (hall r (by simp)) (not_lt.mpr (recordScore_nonneg r))
  · exact ⟨i, by simp [recommendLoop, heq], hmax, hlast⟩

/-- Claim C4, counterexample.  The claim states that every per-step scratch
field — including the match left/right pools, the matched-pairs set and the
cloze echo — is reset to its initial empty value by an advance navigation.
On the code, `reset_select_sessionstate` (run by Back/Skip/Next) clears only
the order fields and the done flag: after advancing from `stateC4` the match
pools, the matched-pairs set and the cloze echo still hold their values. -/
theorem c4_counterexample :
    ¬ (player_next stateC4).left = []
    ∧ ¬ (player_next stateC4).right = []
    ∧ ¬ (player_next stateC4).pressed_match_buttons = []
    ∧ ¬ (player_next stateC4).take_over_answer = "" := by
  decide

/-- Claim C4, amended.  For every session state and every advance/skip/back
navigation action, the order scratch fields (shuffle pool, used tokens,
accumulated answer, canonical order) and the exercise-done flag are reset to
their initial empty values, while every other session field — in particular
the session-wide mistake counter and the newly-learned-word accumulator, but
also the match left/right pools, selection buffer, matched-pairs set and the
cloze last-accepted-answer echo — is left unchanged (the cloze echo is
cleared by the cloze renderer itself on success, not by navigation). -/
theorem c4_navigation_resets_order_scratch_only (s : SessionState) :
    player_next s = { s with
      step_idx := s.step_idx + 1
      order_tokens := []
      used_tokens := []
      order_answer := []
      correct_order := []
      exercise_done := false }
    ∧ player_skip s = { s with
      step_idx := s.step_idx + 1
      order_tokens := []
      used_tokens := []
      order_answer := []
      correct_order := []
      exercise_done := false }
    ∧ player_back s = { s with
      step_idx := s.step_idx - 1
      order_tokens := []
      used_tokens := []
      order_answer := []
      correct_order := []
      exercise_done := false }
    ∧ (player_next s).mistakes = s.mistakes
    ∧ (player_next s).new_words = s.new_words
    ∧ (player_skip s).mistakes = s.mistakes
    ∧ (player_back s).mistakes = s.mistakes :=
  ⟨rfl, rfl, rfl, rfl, rfl, rfl, rfl⟩

/-- Claim C5.  For a guest identity, every Progress Store operation —
`lesson_completed`, `check_lesson_completed`, `get_known_words`,
`reset_lesson`, `get_recommended_lesson`, `generate_word_repetition` —
returns its no-op/empty result (`0`, `[]`, or `None`) and leaves the backing
store untouched, whatever the store contents and arguments. -/
theorem c5_guest_operations_are_noops (db : DB) (u c l : String)
    (m now : Nat) (nw sh : List Word) (d : Nat → Nat) :
    lesson_completed true db u c l m now nw = (some 0, db)
    ∧ check_lesson_completed true db u c l = 0
    ∧ get_known_words true db u c = []
    ∧ reset_lesson true db u c l = db
    ∧ get_recommended_lesson true db u c d = none
    ∧ generate_word_repetition true db u c sh = none :=
  ⟨rfl, rfl, rfl, rfl, rfl, rfl⟩

/-- Claim C6.  For every store and every shuffle outcome (a permutation of
the fetched known words), `generate_word_repetition` returns a synthetic
lesson with id "REPETITION" whose steps are exactly `min(10, |knownWords|)`
entries drawn from the known words without replacement (a sub-permutation:
no entry position is used twice); when the known-words set is empty the
lesson has no steps. -/
theorem c6_repetition_set_bounded_no_replacement (db : DB) (u c : String)
    (shuffled : List Word)
    (hperm : shuffled.Perm (get_known_words false db u c)) :
    ∃ lesson : Lesson,
      generate_word_repetition false db u c shuffled = some lesson
      ∧ lesson.id = "REPETITION"
      ∧ lesson.steps.length = min 10 (get_known_words false db u c).length
      ∧ lesson.steps.Subperm (get_known_words false db u c)
      ∧ (get_known_words false db u c = [] → lesson.steps = []) := by
  refine ⟨_, rfl, rfl, ?_, ?_, ?_⟩
  · simp only [generate_word_repetition]
    simp [List.length_take, hperm.length_eq]
    omega
  · exact ((List.take_sublist _ _).subperm).trans hperm.subperm
  · intro h
    have hs : shuffled = [] := List.Perm.eq_nil (h ▸ hperm)
    simp [generate_word_repetition, hs]

/-- Witness for C6 at a concrete store: known words [w1, w2], shuffle
[w2, w1]. -/
theorem c6_repetition_set_bounded_no_replacement_witness :
    ∃ lesson : Lesson,
      generate_word_repetition false dbC6 "u" "c"
        [⟨"w2", "b"⟩, ⟨"w1", "a"⟩] = some lesson
      ∧ lesson.id = "REPETITION"
      ∧ lesson.steps.length = min 10 (get_known_words false dbC6 "u" "c").length
      ∧ lesson.steps.Subperm (get_known_words false dbC6 "u" "c")
      ∧ (get_known_words false dbC6 "u" "c" = [] → lesson.steps = []) :=
  c6_repetition_set_bounded_no_replacement dbC6 "u" "c"
    [⟨"w2", "b"⟩, ⟨"w1", "a"⟩] (by decide)

/-- Claim C7.  The order validator accepts the learner's accumulated token
sequence iff it equals the step's token list in its original pre-shuffle
order, element by element with no normalization: whatever permutation the
presented pool was shuffled into, the canonical `correct_order` stored at
initialisation is the original token list, and any proper permutation of the
solution is rejected. -/
theorem c7_order_validator_exact_sequence (tokens shuffled answer : List String)
    (s : SessionState) (hinit : s.order_tokens = [])
    (hperm : shuffled.Perm tokens) :
    (render_order_init tokens shuffled s).correct_order = tokens
    ∧ (order_submit_check
        { render_order_init tokens shuffled s with order_answer := answer } = true
        ↔ answer = tokens)
    ∧ (answer.Perm tokens → ¬ answer = tokens →
        order_submit_check
          { render_order_init tokens shuffled s with order_answer := answer }
          = false) := by
  refine ⟨?_, ?_, ?_⟩
  · simp [render_order_init, hinit]
  · simp [render_order_init, hinit, order_submit_check]
  · intro _ hne
    simp [render_order_init, hinit, order_submit_check, hne]

/-- Witness for C7 at the concrete step ["Ich", "gseh", "dr", "Bärn"],
shuffled presentation ["dr", "Ich", "Bärn", "gseh"], submitted in the
original order. -/
theorem c7_order_validator_exact_sequence_witness :
    (render_order_init ["Ich", "gseh", "dr", "Bärn"]
      ["dr", "Ich", "Bärn", "gseh"] initState).correct_order
      = ["Ich", "gseh", "dr", "Bärn"]
    ∧ (order_submit_check
        { render_order_init ["Ich", "gseh", "dr", "Bärn"]
            ["dr", "Ich", "Bärn", "gseh"] initState with
          order_answer := ["Ich", "gseh", "dr", "Bärn"] } = true
        ↔ ["Ich", "gseh", "dr", "Bärn"] = ["Ich", "gseh", "dr", "Bärn"])
    ∧ (List.Perm ["Ich", "gseh", "dr", "Bärn"] ["Ich", "gseh", "dr", "Bärn"] →
        ¬ ["Ich", "gseh", "dr", "Bärn"] = ["Ich", "gseh", "dr", "Bärn"] →
        order_submit_check
          { render_order_init ["Ich", "gseh", "dr", "Bärn"]
              ["dr", "Ich", "Bärn", "gseh"] initState with
            order_answer := ["Ich", "gseh", "dr", "Bärn"] } = false) :=
  c7_order_validator_exact_sequence ["Ich", "gseh", "dr", "Bärn"]
    ["dr", "Ich", "Bärn", "gseh"] ["Ich", "gseh", "dr", "Bärn"] initState
    rfl (by decide)

/-- Claim C8.  With no completed progress record for (user, course) the
recommendation is the caller's "no recommendation" result (the falsy `""`,
tested by `if rec_lesson_id:` in `course_page`); with exactly one record the
scan returns that record's lesson id, whatever its score. -/
theorem c8_recommend_empty_and_singleton (db : DB) (u c : String)
    (daysSince : Nat → Nat) (rec : LessonRecord) :
    (completedRows db u c = [] →
      isNoRecommendation (get_recommended_lesson false db u c daysSince) = true)
    ∧ recommendLoop [rec] = rec.lesson_id := by
  constructor
  · intro h
    simp [get_recommended_lesson, h, recommendLoop, isNoRecommendation]
  · have h : (0 : ℚ) ≤ recordScore rec := recordScore_nonneg rec
    simp [recommendLoop, recommendStep, h]

/-- Witness for C8: the empty store has no completed rows, and a singleton
scan returns its record's lesson id. -/
theorem c8_recommend_empty_and_singleton_witness :
    (completedRows emptyDB "u" "c" = [] →
      isNoRecommendation (get_recommended_lesson false emptyDB "u" "c" id) = true)
    ∧ recommendLoop [⟨"A", 5, 0⟩] = LessonRecord.lesson_id ⟨"A", 5, 0⟩ :=
  c8_recommend_empty_and_singleton emptyDB "u" "c" id ⟨"A", 5, 0⟩

/-- Claim C9, counterexample.  The claim states that a wrong second click in
the match exercise increments the session mistake counter by one.  On the
code it does not: with "a" selected (counterpart "1") and "2" clicked,
`check_buttons` clears the selection and queues the "wrong" sound, but the
mistake counter keeps its value 0 — `mistake_made` is never called. -/
theorem c9_counterexample :
    ¬ (check_buttons pairsC9 stateC9 "2").mistakes = stateC9.mistakes + 1
    ∧ (check_buttons pairsC9 stateC9 "2").mistakes = stateC9.mistakes
    ∧ (check_buttons pairsC9 stateC9 "2").match_sel_btn = none
    ∧ (check_buttons pairsC9 stateC9 "2").pressed_match_buttons
      = stateC9.pressed_match_buttons := by
  decide

/-- Claim C9, amended.  In the match exercise, when a pending selection
exists and the second clicked item is not the pending item's designated
counterpart, the pending selection is cleared and the wrong-answer sound is
queued, while the matched-pairs set and the session mistake counter are both
left unchanged: the wrong pairing is not counted as a mistake anywhere. -/
theorem c9_wrong_pair_clears_selection_only (pairs : List Pair)
    (s : SessionState) (elm : String)
    (hsel : optTruthy s.match_sel_btn = true)
    (hwrong : ¬ elm = corresponding_button pairs (s.match_sel_btn.getD "")) :
    check_buttons pairs s elm
      = { s with match_sel_btn := none, match_sound := "wrong" }
    ∧ (check_buttons pairs s elm).mistakes = s.mistakes
    ∧ (check_buttons pairs s elm).pressed_match_buttons
      = s.pressed_match_buttons := by
  have h : check_buttons pairs s elm
      = { s with match_sel_btn := none, match_sound := "wrong" } := by
    simp [check_buttons, hsel, hwrong]
  exact ⟨h, by rw [h], by rw [h]⟩

/-- Witness for C9 (amended) at the concrete wrong click "2" while "a" is
selected among the pairs a-1, b-2. -/
theorem c9_wrong_pair_clears_selection_only_witness :
    check_buttons pairsC9 { initState with match_sel_btn := some "a" } "2"
      = { { initState with match_sel_btn := some "a" } with
          match_sel_btn := none, match_sound := "wrong" }
    ∧ (check_buttons pairsC9 { initState with match_sel_btn := some "a" } "2").mistakes
      = SessionState.mistakes { initState with match_sel_btn := some "a" }
    ∧ (check_buttons pairsC9
        { initState with match_sel_btn := some "a" } "2").pressed_match_buttons
      = SessionState.pressed_match_buttons
        { initState with match_sel_btn := some "a" } :=
  c9_wrong_pair_clears_selection_only pairsC9
    { initState with match_sel_btn := some "a" } "2" (by decide) (by decide)

/-- Claim C10.  Rendering a step whose type tag is not one of the eight
known step types returns `StepOutcome(can_go_next=True)` whatever the
session state, so an unrecognized step never blocks advancing; a step with
no type field defaults to "markdown" and also yields `can_go_next=True`. -/
theorem c10_unknown_step_type_can_advance (step : Step) (s : SessionState) :
    (step.type.getD "markdown" ∉ knownStepTypes → render_step step s = ⟨true⟩)
    ∧ (step.type = none → render_step step s = ⟨true⟩) := by
  constructor
  · intro h
    simp only [knownStepTypes, List.mem_cons, List.not_mem_nil, or_false] at h
    push_neg at h
    obtain ⟨h1, h2, h3, h4, h5, h6, h7, h8⟩ := h
    simp [render_step, h1, h2, h3, h4, h5, h6, h7, h8]
  · intro h
    simp [render_step, h]

/-- Witness for C10 at the unknown type "video" and at a step without a
type field. -/
theorem c10_unknown_step_type_can_advance_witness :
    render_step ⟨some "video"⟩ initState = ⟨true⟩
    ∧ render_step ⟨none⟩ initState = ⟨true⟩ :=
  ⟨(c10_unknown_step_type_can_advance ⟨some "video"⟩ initState).1 (by decide),
   (c10_unknown_step_type_can_advance ⟨none⟩ initState).2 rfl⟩

end LangApp
